import Mathlib

/-!
Shallow embedding of the task event streaming client in `static/main.js`
(OpenManus web UI).  The stateful `setupSSE` closure is modelled as an
explicit state record (`SSEState`) together with pure transition functions,
one per JavaScript event handler; the surrounding event loop is modelled by
the step function `sseStep` over externally chosen events (`SSEEvent`) and
by `runTrace` for event sequences.  JSON payloads are modelled by the value
space of the protocol: a field is `Option`-valued when the source may find
it `undefined`, and a whole payload is `none` when `JSON.parse` would throw.
-/

namespace OpenManus

/-- A JSON value that can sit in a frame's `result` field: either a string
or an object with the (optional) `question` / `request_id` fields used by
`ask_human` payloads. -/
inductive ResultVal where
  | text (s : String)
  | obj (question : Option String) (request_id : Option String)
deriving DecidableEq, Repr

/-- Parsed body of a pushed frame: `data.result` and `data.message`, each
possibly absent. -/
structure FrameData where
  result : Option ResultVal
  message : Option String
deriving DecidableEq, Repr

/-- Authoritative task snapshot returned by `GET /tasks/{id}` as consumed
by `updateTaskStatus` and the `onerror` poll: only `status` and `error`
are inspected there. -/
structure TaskSnap where
  status : String
  error : Option String
deriving DecidableEq, Repr

/-- A file reference derived by `createStepElement` from an `act` payload
matching the saved-file pattern. -/
inductive FileKind where
  | image
  | audio
  | code
  | generic
deriving DecidableEq, Repr

structure FileRef where
  fileName : String
  kind : FileKind
deriving DecidableEq, Repr

/-- Elements appended to the step container: the `createStepElement`
outputs (progress divider or a typed log line) and the two shapes produced
by `createHumanRequestElement`. -/
inductive StepElem where
  | divider (cur tot : String)
  | item (type icon label timestamp content : String) (file : Option FileRef)
  | askError (timestamp : String)
  | askPending (timestamp question emText : String)
deriving DecidableEq, Repr

/-- Container-level children added via `container.innerHTML +=` (banners,
heartbeat pings) or set by `createTask` (the loading placeholder). -/
inductive BannerItem where
  | loading
  | ping
  | completeBanner (result : String)
  | completeNotice
  | errorBanner (msg : String)
  | cancelledBanner
  | retryWarning (n : Nat)
  | giveUpNotice
deriving DecidableEq, Repr

/-- Network requests issued by the session (we record issuance; replies
arrive as separate events). -/
inductive Request where
  | pollStatus
deriving DecidableEq, Repr

/-- The state of one `setupSSE` session: the closure variables
(`retryCount`, `lastResultContent`), the current `EventSource` and timers,
the globals `currentEventSource` / `currentTaskId` as seen by this
session, and the render surface. `opens` counts `new EventSource`
constructions (channel opens). -/
structure SSEState where
  retryCount : Nat
  opens : Nat
  esOpen : Bool
  curES : Bool
  curTaskSet : Bool
  heartbeat : Bool
  reconnectScheduled : Bool
  containerActive : Bool
  containerItems : List BannerItem
  stepContainer : Option (List StepElem)
  statusBar : String
  cancelBtn : Bool
  modal : Option (String × String)
  lastResultContent : String
  reqs : List Request
deriving DecidableEq, Repr

def maxRetries : Nat := 3

/-! ### String scanning helpers (the two regexes of `createStepElement`) -/

/-- Remainder of `s` after the first occurrence of `m`, or `none` when `m`
does not occur (character-list form of a regex search for a literal). -/
def afterSub (m : List Char) (s : List Char) : Option (List Char) :=
  if m.isPrefixOf s then some (s.drop m.length)
  else
    match s with
    | [] => none
    | _ :: cs => afterSub m cs

/-- Whether the literal `m` occurs inside `s` (JS `String.includes`). -/
def containsSub (m s : String) : Bool :=
  (afterSub m.toList s.toList).isSome

/-- JS `String.prototype.trim`: strip leading and trailing whitespace
(structural char-list form, so that concrete inputs evaluate). -/
def jsTrim (s : String) : String :=
  String.mk
    (((s.toList.dropWhile Char.isWhitespace).reverse.dropWhile
        Char.isWhitespace).reverse)

/-- Try to read a nonempty run of digits at the head of `cs`. -/
def takeDigits (cs : List Char) : Option (String × List Char) :=
  let ds := cs.takeWhile Char.isDigit
  if ds.isEmpty then none else some (String.mk ds, cs.drop ds.length)

/-- Match `Executing step (\d+)/(\d+)` at the head of `cs`. -/
def matchExecAt (cs : List Char) : Option (String × String) :=
  let marker := "Executing step ".toList
  if marker.isPrefixOf cs then
    match takeDigits (cs.drop marker.length) with
    | none => none
    | some (d1, rest) =>
      match rest with
      | '/' :: rest2 =>
        match takeDigits rest2 with
        | none => none
        | some (d2, _) => some (d1, d2)
      | _ => none
  else none

/-- Search for the first position where the progress-marker regex of
`createStepElement` matches. -/
def matchExecStep : List Char → Option (String × String)
  | [] => none
  | c :: rest =>
    match matchExecAt (c :: rest) with
    | some r => some r
    | none => matchExecStep rest

/-! ### Event dispatcher (`createStepElement`, `getEventIcon`, `getEventLabel`) -/

def eventIcons : List (String × String) :=
  [("think", "🤔"), ("tool", "🛠️"), ("act", "🚀"), ("result", "🏁"),
   ("error", "❌"), ("complete", "✅"), ("log", "📝"), ("run", "⚙️"),
   ("ask_human", "💬")]

def eventLabels : List (String × String) :=
  [("think", "Thinking"), ("tool", "Using Tool"), ("act", "Action"),
   ("result", "Result"), ("error", "Error"), ("complete", "Complete"),
   ("log", "Log"), ("run", "Running"), ("ask_human", "Question for User")]

def getEventIcon (t : String) : String :=
  (eventIcons.lookup t).getD "ℹ️"

def getEventLabel (t : String) : String :=
  (eventLabels.lookup t).getD "Info"

def imageExts : List String := ["jpg", "jpeg", "png", "gif", "svg", "webp"]
def audioExts : List String := ["mp3", "wav", "ogg"]
def codeExts : List String := ["html", "js", "py"]

/-- The `act` branch of `createStepElement`: match the saved-file regex
`Content successfully saved to (.+)` and derive the file name and its
interaction kind from the extension. -/
def actFileRef (content : String) : Option FileRef :=
  match afterSub "Content successfully saved to ".toList content.toList with
  | none => none
  | some rest =>
    let captured := rest.takeWhile (fun c => c ≠ '\n')
    if captured.isEmpty then none
    else
      let filePath := jsTrim (String.mk captured)
      let fileName := (filePath.splitOn "/").getLastD ""
      let ext := ((fileName.splitOn ".").getLastD "").toLower
      some { fileName := fileName,
             kind :=
               if ext ∈ imageExts then FileKind.image
               else if ext ∈ audioExts then FileKind.audio
               else if ext ∈ codeExts then FileKind.code
               else FileKind.generic }

def mkLogLine (t content timestamp : String) : StepElem :=
  StepElem.item t (getEventIcon t) (getEventLabel t) timestamp content none

/-- `createStepElement(type, content, timestamp)`: a progress divider for
`log` lines matching the step marker, an `act` line carrying a possible
file reference, and a generic typed log line otherwise. -/
def createStepElement (t content timestamp : String) : StepElem :=
  if t == "log" then
    match matchExecStep content.toList with
    | some (cur, tot) => StepElem.divider cur tot
    | none => mkLogLine t content timestamp
  else if t == "act" then
    StepElem.item t (getEventIcon t) (getEventLabel t) timestamp content
      (actFileRef content)
  else mkLogLine t content timestamp

/-- JS string coercion of `data.result` as it reaches a template literal:
a string stays itself, an object prints as `[object Object]`, an absent
field prints as `undefined`. -/
def jsToString : Option ResultVal → String
  | some (ResultVal.text s) => s
  | some (ResultVal.obj _ _) => "[object Object]"
  | none => "undefined"

/-- The `data.result` fallback to the empty string in the complete
handler: a string stays itself (an empty string is falsy, but the fallback
is the empty string anyway), an object is truthy and later coerces to
`[object Object]`, an absent field falls back to the empty string. -/
def jsOrEmpty : Option ResultVal → String
  | some (ResultVal.text s) => s
  | some (ResultVal.obj _ _) => "[object Object]"
  | none => ""

/-- Whether `data.result` is a string: `content.match(...)` in the `act`
branch of `createStepElement` throws a `TypeError` when it is not. -/
def isStringResult : Option ResultVal → Bool
  | some (ResultVal.text _) => true
  | _ => false

/-! ### Render-surface helpers of the session -/

/-- Removal of the loading placeholder: the source removes the first
element of class loading from the container, if any. -/
def removeFirstLoading : List BannerItem → List BannerItem
  | [] => []
  | BannerItem.loading :: rest => rest
  | b :: rest => b :: removeFirstLoading rest

def removeLoading (st : SSEState) : SSEState :=
  { st with containerItems := removeFirstLoading st.containerItems }

/-- `ensureStepContainer`: when no step container exists yet, the whole
container content is replaced by a fresh empty step container. -/
def ensureSteps (st : SSEState) : SSEState :=
  if st.stepContainer.isSome then st
  else { st with containerItems := [], stepContainer := some [] }

def curSteps (st : SSEState) : List StepElem :=
  st.stepContainer.getD []

def appendStep (st : SSEState) (e : StepElem) : SSEState :=
  let st2 := ensureSteps st
  { st2 with stepContainer := some (curSteps st2 ++ [e]) }

/-! ### The session event handlers of `setupSSE` -/

def waitingText : String := "Waiting for user response..."

/-- Extraction of `request_id` in `createHumanRequestElement`: present
only when `data.result` is an object, `null` otherwise. -/
def askRequestId : Option ResultVal → Option String
  | some (ResultVal.obj _ rid) => rid
  | _ => none

/-- Extraction of the question text in `createHumanRequestElement`, as it
reaches the template literal. -/
def askQuestion : Option ResultVal → String
  | some (ResultVal.obj q _) => q.getD "undefined"
  | some (ResultVal.text s) => s
  | none => "undefined"

/-- `createHumanRequestElement(data, taskId)`: a missing or empty
`request_id` yields the error log element and no modal; otherwise a
pending log element plus a modal request (question, request id). -/
def createHumanRequestElement (r : Option ResultVal) (now : String) :
    StepElem × Option (String × String) :=
  match askRequestId r with
  | none => (StepElem.askError now, none)
  | some rid =>
    if rid == "" then (StepElem.askError now, none)
    else (StepElem.askPending now (askQuestion r) waitingText,
          some (askQuestion r, rid))

/-- `handleEvent(event, type)` for the generic types: clear the heartbeat,
parse (a `none` payload models a `JSON.parse` throw, caught and logged),
append the classified step and issue a status poll.  When the type is
`act` and the payload result is not a string, `createStepElement` throws
before the append and the poll; the exception is caught. -/
def handleEvent (st : SSEState) (t : String) (d : Option FrameData)
    (now : String) : SSEState :=
  let st1 := { st with heartbeat := false }
  match d with
  | none => st1
  | some data =>
    let st2 := ensureSteps { removeLoading st1 with containerActive := true }
    if t == "act" && !isStringResult data.result then st2
    else
      let st3 := appendStep st2 (createStepElement t (jsToString data.result) now)
      { st3 with reqs := st3.reqs ++ [Request.pollStatus] }

/-- The `ask_human` listener: like `handleEvent` but appends the element
built by `createHumanRequestElement` and surfaces the modal (replacing any
prior one); it issues no status poll. -/
def handleAskHuman (st : SSEState) (d : Option FrameData) (now : String) :
    SSEState :=
  let st1 := { st with heartbeat := false }
  match d with
  | none => st1
  | some data =>
    let st2 := ensureSteps { removeLoading st1 with containerActive := true }
    let res := createHumanRequestElement data.result now
    let st3 := appendStep st2 res.1
    match res.2 with
    | none => st3
    | some m => { st3 with modal := some m }

/-- The `complete` listener: render the completion banner with the frame
result, hide the cancel button, issue a final status poll, close the
channel and null the globals. -/
def handleComplete (st : SSEState) (d : Option FrameData) : SSEState :=
  let st1 := { st with heartbeat := false }
  match d with
  | none => st1
  | some data =>
    let res := jsOrEmpty data.result
    { st1 with
      lastResultContent := res,
      containerItems := st1.containerItems ++ [BannerItem.completeBanner res],
      cancelBtn := false,
      reqs := st1.reqs ++ [Request.pollStatus],
      esOpen := false, curES := false, curTaskSet := false }

/-- The `error` listener: render the error banner with `data.message`,
hide the cancel button, close the channel and null the globals.  Unlike
`complete` and `cancelled`, it issues no status poll. -/
def handleErrorEvt (st : SSEState) (d : Option FrameData) : SSEState :=
  let st1 := { st with heartbeat := false }
  match d with
  | none => st1
  | some data =>
    { st1 with
      containerItems :=
        st1.containerItems ++ [BannerItem.errorBanner (data.message.getD "undefined")],
      cancelBtn := false,
      esOpen := false, curES := false, curTaskSet := false }

/-- The `cancelled` listener: render the cancellation banner, hide the
cancel button, issue a final status poll, close the channel and null the
globals. -/
def handleCancelled (st : SSEState) (d : Option FrameData) : SSEState :=
  let st1 := { st with heartbeat := false }
  match d with
  | none => st1
  | some _ =>
    { st1 with
      containerItems := st1.containerItems ++ [BannerItem.cancelledBanner],
      cancelBtn := false,
      reqs := st1.reqs ++ [Request.pollStatus],
      esOpen := false, curES := false, curTaskSet := false }

/-- `currentEventSource.close(); currentEventSource = null` as performed
by `updateTaskStatus` on terminal statuses: effective only while the
global still points at this session. -/
def closeCurrent (st : SSEState) : SSEState :=
  if st.curES then { st with esOpen := false, curES := false } else st

/-- `updateTaskStatus(task)`: write the status bar, toggle the cancel
button and close the current channel on a terminal authoritative status. -/
def updateTaskStatus (st : SSEState) (task : TaskSnap) : SSEState :=
  if task.status == "completed" then
    closeCurrent { st with statusBar := "✅ Task completed", cancelBtn := false }
  else if task.status == "cancelled" then
    closeCurrent { st with statusBar := "🚫 Task cancelled", cancelBtn := false }
  else if task.status == "failed" then
    closeCurrent
      { st with
        statusBar := "❌ Task failed: " ++ (task.error.getD "Unknown error"),
        cancelBtn := false }
  else if task.status == "running" then
    { st with statusBar := "⚙️ Task running: " ++ task.status, cancelBtn := true }
  else
    { st with statusBar := "⚙️ Task running: " ++ task.status }

/-- `eventSource.onerror`: return if the source is already closed;
otherwise clear the heartbeat, close the channel and poll once.  On a
poll response with status completed or failed, reconcile and render a
terminal banner; otherwise retry while the budget allows (incrementing
`retryCount` and scheduling a reconnect) or render the give-up notice.
When the poll itself fails, retry while the budget allows. -/
def onError (st : SSEState) (poll : Option TaskSnap) : SSEState :=
  if !st.esOpen then st
  else
    let st1 := { st with heartbeat := false, esOpen := false,
                         reqs := st.reqs ++ [Request.pollStatus] }
    match poll with
    | some task =>
      if task.status == "completed" || task.status == "failed" then
        let st2 := updateTaskStatus st1 task
        if task.status == "completed" then
          { st2 with containerItems := st2.containerItems ++ [BannerItem.completeNotice] }
        else
          { st2 with
            containerItems :=
              st2.containerItems ++ [BannerItem.errorBanner (task.error.getD "Task failed")] }
      else if st1.retryCount < maxRetries then
        { st1 with
          retryCount := st1.retryCount + 1,
          containerItems := st1.containerItems ++ [BannerItem.retryWarning (st1.retryCount + 1)],
          reconnectScheduled := true }
      else
        { st1 with containerItems := st1.containerItems ++ [BannerItem.giveUpNotice] }
    | none =>
      if st1.retryCount < maxRetries then
        { st1 with retryCount := st1.retryCount + 1, reconnectScheduled := true }
      else st1

/-- `connect()`: construct a fresh `EventSource` (counted in `opens`),
point the global at it, arm the heartbeat interval and issue the initial
status poll. -/
def connect (st : SSEState) : SSEState :=
  { st with
    esOpen := true, curES := true, opens := st.opens + 1, heartbeat := true,
    reqs := st.reqs ++ [Request.pollStatus] }

/-! ### The event loop -/

/-- Event names with a registered generic listener. -/
def registeredGeneric : List String :=
  ["think", "tool", "act", "log", "run", "message"]

/-- All event names with any registered listener on the channel. -/
def registeredTypes : List String :=
  registeredGeneric ++ ["ask_human", "complete", "error", "cancelled"]

/-- Delivery of one pushed frame: a closed `EventSource` delivers nothing;
an open one fires the listener registered for the frame name, and fires
nothing at all for a name with no registered listener. -/
def dispatchFrame (st : SSEState) (name : String) (d : Option FrameData)
    (now : String) : SSEState :=
  if !st.esOpen then st
  else if name ∈ registeredGeneric then handleEvent st name d now
  else if name == "ask_human" then handleAskHuman st d now
  else if name == "complete" then handleComplete st d
  else if name == "error" then handleErrorEvt st d
  else if name == "cancelled" then handleCancelled st d
  else st

/-- External events driving one session: a pushed frame, a transport
error together with the outcome of the poll its handler issues, the
firing of a scheduled reconnect delay, a heartbeat interval tick, and the
completion of an in-flight status poll (applied unconditionally, as the
fire-and-forget fetch callbacks are). -/
inductive SSEEvent where
  | frame (name : String) (d : Option FrameData) (now : String)
  | transportError (poll : Option TaskSnap)
  | reconnect
  | heartbeatTick
  | statusReply (task : Option TaskSnap)

def sseStep (st : SSEState) : SSEEvent → SSEState
  | SSEEvent.frame n d now => dispatchFrame st n d now
  | SSEEvent.transportError poll => onError st poll
  | SSEEvent.reconnect =>
    if st.reconnectScheduled then connect { st with reconnectScheduled := false }
    else st
  | SSEEvent.heartbeatTick =>
    if st.heartbeat then
      { st with containerItems := st.containerItems ++ [BannerItem.ping] }
    else st
  | SSEEvent.statusReply task =>
    match task with
    | some t => updateTaskStatus st t
    | none => st

def runTrace (st : SSEState) : List SSEEvent → SSEState
  | [] => st
  | ev :: evs => runTrace (sseStep st ev) evs

/-! ### The human-response modal (`respondToHumanModal` and helpers) -/

def skipSentinel : String := "User chose to skip this question."

structure PostReq where
  request_id : String
  response : String
deriving DecidableEq, Repr

inductive FooterState where
  | normal
  | loading
  | errorMsg (msg : String)
  | successMsg (msg : String)
deriving DecidableEq, Repr

structure ModalState where
  present : Bool
  buttonsEnabled : Bool
  footer : FooterState
deriving DecidableEq, Repr

/-- State touched by `respondToHumanModal`: the modal, the log elements of
class `step-item ask_human` in document order, the respond POSTs issued,
and whether the delayed modal close has been scheduled. -/
structure RespondState where
  modal : ModalState
  logs : List StepElem
  posts : List PostReq
  closeScheduled : Bool
deriving DecidableEq, Repr

/-- Outcome of the respond POST: 2xx, a non-2xx reply with an optional
`detail` body, or a network error (rejected fetch). -/
inductive RespondOutcome where
  | ok
  | httpError (detail : Option String)
  | networkError
deriving DecidableEq, Repr

def showModalError (st : RespondState) (msg : String) : RespondState :=
  if st.modal.present then
    { st with modal := { st.modal with footer := FooterState.errorMsg msg } }
  else st

def showModalLoading (st : RespondState) : RespondState :=
  if st.modal.present then
    { st with
      modal := { st.modal with buttonsEnabled := false, footer := FooterState.loading } }
  else st

def showModalSuccess (st : RespondState) (msg : String) : RespondState :=
  if st.modal.present then
    { st with modal := { st.modal with footer := FooterState.successMsg msg } }
  else st

/-- Text content of a log element, as searched by `updateLogElement`. -/
def stepText : StepElem → String
  | StepElem.divider cur tot => cur ++ "/" ++ tot
  | StepElem.item _ icon label ts content _ =>
    icon ++ " [" ++ ts ++ "] " ++ label ++ ":" ++ content
  | StepElem.askError ts =>
    "💬 [" ++ ts ++ "] Question for User:" ++ "Error: No request ID found"
  | StepElem.askPending ts q em => "💬 [" ++ ts ++ "] Question for User:" ++ q ++ em

/-- Whether the element carries the CSS classes queried by
`updateLogElement`. -/
def isAskHumanClass : StepElem → Bool
  | StepElem.askError _ => true
  | StepElem.askPending _ _ _ => true
  | StepElem.item t _ _ _ _ _ => t == "ask_human"
  | StepElem.divider _ _ => false

def waitingMarker : String := "Waiting for user response"

def matchesWaiting (e : StepElem) : Bool :=
  isAskHumanClass e && containsSub waitingMarker (stepText e)

def quoteStr (s : String) : String := "\"" ++ s ++ "\""

/-- Setting the text of the em child of a matched element: `none` models
the thrown TypeError when the element has no em child. -/
def rewriteEm (e : StepElem) (newEm : String) : Option StepElem :=
  match e with
  | StepElem.askPending ts q _ => some (StepElem.askPending ts q newEm)
  | _ => none

/-- `updateLogElement(requestId, response, action)`: walk the ask-human
log elements, rewrite the em text of the first one still waiting and
stop.  The `requestId` argument is unused by the source.  The result is
`none` when the matched element has no em child, where the source would
throw (caught by the caller's try block). -/
def updateLogElement (requestId : String) (logs : List StepElem)
    (response : String) (action : String) : Option (List StepElem) :=
  match logs with
  | [] => some []
  | e :: rest =>
    if matchesWaiting e then
      (rewriteEm e
        ("User response: " ++
          (if action == "skip" then "(skipped)" else quoteStr response))).map
        (fun e2 => e2 :: rest)
    else
      (updateLogElement requestId rest response action).map (e :: ·)

/-- `respondToHumanModal(taskId, requestId, responseElementId, action)`:
a skip substitutes the sentinel answer; an empty trimmed answer shows an
error and returns without posting; otherwise the buttons are disabled, one
POST is issued, and the outcome drives success rendering, the in-place log
update and the delayed close, or an error rendering that leaves the modal
open. -/
def respondToHumanModal (st : RespondState) (requestId : String)
    (textarea : Option String) (action : String) (outcome : RespondOutcome) :
    RespondState :=
  let response? : Option String :=
    if action == "skip" then some skipSentinel
    else
      let r := jsTrim (textarea.getD "")
      if r == "" then none else some r
  match response? with
  | none => showModalError st "Please enter a response or click \"Skip\""
  | some response =>
    let st1 := showModalLoading st
    let st2 := { st1 with posts := st1.posts ++ [⟨requestId, response⟩] }
    match outcome with
    | RespondOutcome.ok =>
      let st3 := showModalSuccess st2
        (if action == "skip" then "✓ Question skipped" else "✓ Response sent successfully")
      match updateLogElement requestId st3.logs response action with
      | some logs2 => { st3 with logs := logs2, closeScheduled := true }
      | none => showModalError st3 "Network error. Please try again."
    | RespondOutcome.httpError detail =>
      let dtl := detail.getD ""
      showModalError st2
        ("Error: " ++ (if dtl == "" then "Failed to send response" else dtl))
    | RespondOutcome.networkError =>
      showModalError st2 "Network error. Please try again."

/-! ### `createTask` (synchronous phase) -/

structure AppGlobals where
  currentESOpen : Bool
  currentTaskId : Option String
  containerLoading : Bool
  cancelBtnVisible : Bool
  promptFocused : Bool
deriving DecidableEq, Repr

inductive AppRequest where
  | postTask (prompt : String)
deriving DecidableEq, Repr

/-- The synchronous phase of `createTask()`: trim the prompt; when empty,
alert and focus the input and return without any request; otherwise close
any current channel, show the loading placeholder and the cancel button,
and issue the task-creation POST. -/
def createTask (g : AppGlobals) (inputValue : String) :
    AppGlobals × List AppRequest :=
  let prompt := jsTrim inputValue
  if prompt == "" then ({ g with promptFocused := true }, [])
  else
    ({ g with
       currentESOpen := false,
       containerLoading := true,
       cancelBtnVisible := true }, [AppRequest.postTask prompt])

/-- A session that is closed with no reconnect pending stays that way and
never opens another channel, whatever events arrive. -/
def closedDead (st : SSEState) : Prop :=
  st.esOpen = false ∧ st.reconnectScheduled = false

/-- Once the retry budget is exhausted and no reconnect is pending, no
step schedules a reconnect and no step opens a channel. -/
def exhausted (st : SSEState) : Prop :=
  st.retryCount = maxRetries ∧ st.reconnectScheduled = false

/-! ### Concrete states used to evaluate the model -/

/-- A freshly connected session with an open channel, no steps rendered
yet and an intact retry budget. -/
def sampleOpen : SSEState :=
  { retryCount := 0, opens := 1, esOpen := true, curES := true,
    curTaskSet := true, heartbeat := true, reconnectScheduled := false,
    containerActive := false, containerItems := [], stepContainer := none,
    statusBar := "", cancelBtn := true, modal := none,
    lastResultContent := "", reqs := [] }

/-- The same session with its retry budget exhausted. -/
def sampleExhausted : SSEState :=
  { sampleOpen with retryCount := 3 }

/-- A modal state as `showAskHumanModal` leaves it: prompt shown, buttons
usable, one pending ask-human log element, nothing posted yet. -/
def modalReady : RespondState :=
  { modal := { present := true, buttonsEnabled := true,
               footer := FooterState.normal },
    logs := [StepElem.askPending "10:00:00" "Proceed?" waitingText],
    posts := [], closeScheduled := false }


/-! ### Bookkeeping lemmas: fields untouched by the render helpers -/

theorem ensureSteps_ctrl (st : SSEState) :
    (ensureSteps st).retryCount = st.retryCount ∧
    (ensureSteps st).reconnectScheduled = st.reconnectScheduled ∧
    (ensureSteps st).opens = st.opens ∧
    (ensureSteps st).esOpen = st.esOpen ∧
    (ensureSteps st).heartbeat = st.heartbeat ∧
    (ensureSteps st).modal = st.modal ∧
    (ensureSteps st).reqs = st.reqs := by
  unfold ensureSteps; split_ifs <;> simp

theorem appendStep_ctrl (st : SSEState) (e : StepElem) :
    (appendStep st e).retryCount = st.retryCount ∧
    (appendStep st e).reconnectScheduled = st.reconnectScheduled ∧
    (appendStep st e).opens = st.opens ∧
    (appendStep st e).esOpen = st.esOpen ∧
    (appendStep st e).heartbeat = st.heartbeat ∧
    (appendStep st e).modal = st.modal ∧
    (appendStep st e).reqs = st.reqs := by
  unfold appendStep ensureSteps; split_ifs <;> simp

theorem handleEvent_ctrl (st : SSEState) (t : String) (d : Option FrameData)
    (now : String) :
    (handleEvent st t d now).retryCount = st.retryCount ∧
    (handleEvent st t d now).reconnectScheduled = st.reconnectScheduled ∧
    (handleEvent st t d now).opens = st.opens ∧
    (handleEvent st t d now).esOpen = st.esOpen ∧
    (handleEvent st t d now).modal = st.modal := by
  cases d <;>
    simp only [handleEvent, appendStep, ensureSteps, removeLoading] <;>
    (try split_ifs) <;> simp

theorem handleAskHuman_ctrl (st : SSEState) (d : Option FrameData)
    (now : String) :
    (handleAskHuman st d now).retryCount = st.retryCount ∧
    (handleAskHuman st d now).reconnectScheduled = st.reconnectScheduled ∧
    (handleAskHuman st d now).opens = st.opens ∧
    (handleAskHuman st d now).esOpen = st.esOpen ∧
    (handleAskHuman st d now).reqs = st.reqs := by
  cases d with
  | none => simp [handleAskHuman]
  | some data =>
    rcases h : (createHumanRequestElement data.result now).2 with _ | m <;>
      simp only [handleAskHuman, appendStep, ensureSteps, removeLoading, h] <;>
      (try split_ifs) <;> simp

theorem handleComplete_ctrl (st : SSEState) (d : Option FrameData) :
    (handleComplete st d).retryCount = st.retryCount ∧
    (handleComplete st d).reconnectScheduled = st.reconnectScheduled ∧
    (handleComplete st d).opens = st.opens ∧
    (handleComplete st d).modal = st.modal := by
  cases d <;> simp [handleComplete]

theorem handleErrorEvt_ctrl (st : SSEState) (d : Option FrameData) :
    (handleErrorEvt st d).retryCount = st.retryCount ∧
    (handleErrorEvt st d).reconnectScheduled = st.reconnectScheduled ∧
    (handleErrorEvt st d).opens = st.opens ∧
    (handleErrorEvt st d).modal = st.modal := by
  cases d <;> simp [handleErrorEvt]

theorem handleCancelled_ctrl (st : SSEState) (d : Option FrameData) :
    (handleCancelled st d).retryCount = st.retryCount ∧
    (handleCancelled st d).reconnectScheduled = st.reconnectScheduled ∧
    (handleCancelled st d).opens = st.opens ∧
    (handleCancelled st d).modal = st.modal := by
  cases d <;> simp [handleCancelled]

theorem closeCurrent_ctrl (st : SSEState) :
    (closeCurrent st).retryCount = st.retryCount ∧
    (closeCurrent st).reconnectScheduled = st.reconnectScheduled ∧
    (closeCurrent st).opens = st.opens ∧
    (closeCurrent st).reqs = st.reqs ∧
    (closeCurrent st).heartbeat = st.heartbeat ∧
    (closeCurrent st).modal = st.modal := by
  unfold closeCurrent; split_ifs <;> simp

theorem updateTaskStatus_ctrl (st : SSEState) (task : TaskSnap) :
    (updateTaskStatus st task).retryCount = st.retryCount ∧
    (updateTaskStatus st task).reconnectScheduled = st.reconnectScheduled ∧
    (updateTaskStatus st task).opens = st.opens ∧
    (updateTaskStatus st task).reqs = st.reqs ∧
    (updateTaskStatus st task).heartbeat = st.heartbeat ∧
    (updateTaskStatus st task).modal = st.modal := by
  unfold updateTaskStatus closeCurrent; split_ifs <;> simp

/-- A closed `EventSource` delivers no frames: dispatch is the identity. -/
theorem dispatchFrame_closed (st : SSEState) (n : String) (d : Option FrameData)
    (now : String) (h : st.esOpen = false) : dispatchFrame st n d now = st := by
  unfold dispatchFrame; simp [h]

/-- No frame handler touches the retry counter, the reconnect schedule or
the channel-open count. -/
theorem dispatchFrame_ctrl (st : SSEState) (n : String) (d : Option FrameData)
    (now : String) :
    (dispatchFrame st n d now).retryCount = st.retryCount ∧
    (dispatchFrame st n d now).reconnectScheduled = st.reconnectScheduled ∧
    (dispatchFrame st n d now).opens = st.opens := by
  unfold dispatchFrame
  split_ifs <;>
    first
      | exact ⟨rfl, rfl, rfl⟩
      | exact ⟨(handleEvent_ctrl st n d now).1, (handleEvent_ctrl st n d now).2.1,
          (handleEvent_ctrl st n d now).2.2.1⟩
      | exact ⟨(handleAskHuman_ctrl st d now).1, (handleAskHuman_ctrl st d now).2.1,
          (handleAskHuman_ctrl st d now).2.2.1⟩
      | exact ⟨(handleComplete_ctrl st d).1, (handleComplete_ctrl st d).2.1,
          (handleComplete_ctrl st d).2.2.1⟩
      | exact ⟨(handleErrorEvt_ctrl st d).1, (handleErrorEvt_ctrl st d).2.1,
          (handleErrorEvt_ctrl st d).2.2.1⟩
      | exact ⟨(handleCancelled_ctrl st d).1, (handleCancelled_ctrl st d).2.1,
          (handleCancelled_ctrl st d).2.2.1⟩

/-- The error handler only ever increments the retry counter, and only
under the strict budget check. -/
theorem onError_retryCount (st : SSEState) (poll : Option TaskSnap) :
    (onError st poll).retryCount = st.retryCount ∨
      (st.retryCount < maxRetries ∧
        (onError st poll).retryCount = st.retryCount + 1) := by
  cases poll <;> simp only [onError] <;> split_ifs <;>
    simp_all [updateTaskStatus_ctrl]

theorem onError_opens (st : SSEState) (poll : Option TaskSnap) :
    (onError st poll).opens = st.opens := by
  cases poll <;> simp only [onError] <;> split_ifs <;>
    simp_all [updateTaskStatus_ctrl]

/-- With the retry budget exhausted, the error handler never schedules a
reconnect. -/
theorem onError_exhausted (st : SSEState) (poll : Option TaskSnap)
    (h : st.retryCount = maxRetries) :
    (onError st poll).reconnectScheduled = st.reconnectScheduled ∧
    (onError st poll).retryCount = st.retryCount := by
  cases poll <;> simp only [onError] <;> split_ifs <;>
    simp_all [maxRetries, updateTaskStatus_ctrl]

theorem closedDead_step (st : SSEState) (ev : SSEEvent) (h : closedDead st) :
    closedDead (sseStep st ev) ∧ (sseStep st ev).opens = st.opens := by
  obtain ⟨ho, hs⟩ := h
  cases ev with
  | frame n d now => rw [sseStep, dispatchFrame_closed st n d now ho]; exact ⟨⟨ho, hs⟩, rfl⟩
  | transportError poll =>
    rw [sseStep]; unfold onError; simp [ho, closedDead, hs]
  | reconnect => rw [sseStep]; simp [hs, closedDead, ho]
  | heartbeatTick =>
    rw [sseStep]; split_ifs <;> exact ⟨⟨ho, hs⟩, rfl⟩
  | statusReply task =>
    cases task with
    | none => exact ⟨⟨ho, hs⟩, rfl⟩
    | some t =>
      show closedDead (updateTaskStatus st t) ∧ (updateTaskStatus st t).opens = st.opens
      refine ⟨⟨?_, ?_⟩, (updateTaskStatus_ctrl st t).2.2.1⟩
      · unfold updateTaskStatus closeCurrent; split_ifs <;> simp_all
      · rw [(updateTaskStatus_ctrl st t).2.1, hs]

theorem closedDead_trace (st : SSEState) (evs : List SSEEvent)
    (h : closedDead st) :
    closedDead (runTrace st evs) ∧ (runTrace st evs).opens = st.opens := by
  induction evs generalizing st with
  | nil => exact ⟨h, rfl⟩
  | cons ev evs ih =>
    obtain ⟨h1, h2⟩ := closedDead_step st ev h
    obtain ⟨h3, h4⟩ := ih (sseStep st ev) h1
    exact ⟨h3, by rw [runTrace, h4, h2]⟩

theorem exhausted_step (st : SSEState) (ev : SSEEvent) (h : exhausted st) :
    exhausted (sseStep st ev) ∧ (sseStep st ev).opens = st.opens := by
  obtain ⟨hr, hs⟩ := h
  cases ev with
  | frame n d now =>
    obtain ⟨c1, c2, c3⟩ := dispatchFrame_ctrl st n d now
    exact ⟨⟨by rw [sseStep, c1, hr], by rw [sseStep, c2, hs]⟩, by rw [sseStep, c3]⟩
  | transportError poll =>
    obtain ⟨e1, e2⟩ := onError_exhausted st poll hr
    exact ⟨⟨by rw [sseStep, e2, hr], by rw [sseStep, e1, hs]⟩,
      by rw [sseStep, onError_opens]⟩
  | reconnect => rw [sseStep]; simp [hs, exhausted, hr]
  | heartbeatTick =>
    rw [sseStep]; split_ifs <;> exact ⟨⟨hr, hs⟩, rfl⟩
  | statusReply task =>
    cases task with
    | none => exact ⟨⟨hr, hs⟩, rfl⟩
    | some t =>
      obtain ⟨u1, u2, u3, _⟩ := updateTaskStatus_ctrl st t
      exact ⟨⟨by rw [sseStep, u1, hr], by rw [sseStep, u2, hs]⟩, by rw [sseStep, u3]⟩

theorem exhausted_trace (st : SSEState) (evs : List SSEEvent)
    (h : exhausted st) :
    exhausted (runTrace st evs) ∧ (runTrace st evs).opens = st.opens := by
  induction evs generalizing st with
  | nil => exact ⟨h, rfl⟩
  | cons ev evs ih =>
    obtain ⟨h1, h2⟩ := exhausted_step st ev h
    obtain ⟨h3, h4⟩ := ih (sseStep st ev) h1
    exact ⟨h3, by rw [runTrace, h4, h2]⟩

/-- On a transport error over an open channel, a poll response whose
status is completed or failed settles the session terminally: the retry
counter is untouched, no reconnect is scheduled, exactly one poll was
issued, and the channel is closed. -/
theorem onError_terminalPoll (st : SSEState) (task : TaskSnap)
    (ho : st.esOpen = true)
    (hstat : task.status = "completed" ∨ task.status = "failed") :
    (onError st (some task)).retryCount = st.retryCount ∧
    (onError st (some task)).reconnectScheduled = st.reconnectScheduled ∧
    (onError st (some task)).reqs = st.reqs ++ [Request.pollStatus] ∧
    (onError st (some task)).esOpen = false := by
  rcases hstat with h | h <;>
    simp only [onError, updateTaskStatus, closeCurrent, ho, h] <;>
    split_ifs <;> simp_all

/-- A well-formed terminal frame delivered on an open channel closes it
and touches neither the reconnect schedule nor the open count. -/
theorem dispatchFrame_terminal (st : SSEState) (name : String) (d : FrameData)
    (now : String) (ho : st.esOpen = true)
    (hterm : name = "complete" ∨ name = "error" ∨ name = "cancelled") :
    (dispatchFrame st name (some d) now).esOpen = false ∧
    (dispatchFrame st name (some d) now).reconnectScheduled = st.reconnectScheduled ∧
    (dispatchFrame st name (some d) now).opens = st.opens := by
  rcases hterm with h | h | h <;> subst h <;>
    simp [dispatchFrame, ho, registeredGeneric, handleComplete, handleErrorEvt,
      handleCancelled]

theorem sseStep_reconnect_retryCount (st : SSEState) :
    (sseStep st SSEEvent.reconnect).retryCount = st.retryCount := by
  rw [sseStep]; split_ifs <;> rfl

/-- The generic handler, on a frame whose result is a string, appends the
step and issues exactly one status poll. -/
theorem handleEvent_reqs_str (st : SSEState) (t s now : String) (d : FrameData)
    (hres : d.result = some (ResultVal.text s)) :
    (handleEvent st t (some d) now).reqs = st.reqs ++ [Request.pollStatus] := by
  simp only [handleEvent, hres, isStringResult]
  split_ifs with h
  · simp at h
  · simp only [appendStep, ensureSteps, removeLoading]
    split_ifs <;> simp

theorem afterSub_append_isSome (m xs ys : List Char)
    (h : (afterSub m ys).isSome) : (afterSub m (xs ++ ys)).isSome := by
  induction xs with
  | nil => simpa
  | cons x xs ih =>
    rw [List.cons_append, afterSub]
    split_ifs with hp
    · simp
    · simpa using ih

/-- A string that textually ends in the waiting marker text is found by
the includes search, whatever precedes it. -/
theorem containsSub_append (m pre s : String) (h : containsSub m s = true) :
    containsSub m (pre ++ s) = true := by
  unfold containsSub at h ⊢
  rw [show (pre ++ s).toList = pre.toList ++ s.toList from String.data_append pre s]
  exact afterSub_append_isSome m.toList pre.toList s.toList h

theorem matchesWaiting_pending (ts q : String) :
    matchesWaiting (StepElem.askPending ts q waitingText) = true := by
  unfold matchesWaiting isAskHumanClass stepText
  rw [Bool.true_and]
  exact containsSub_append _ _ _ (by decide)

/-- `updateLogElement` passes unmodified over a run of elements that do
not match the waiting search. -/
theorem updateLogElement_append (requestId response action : String)
    (pre rest : List StepElem)
    (hpre : ∀ e ∈ pre, matchesWaiting e = false) :
    updateLogElement requestId (pre ++ rest) response action =
      (updateLogElement requestId rest response action).map (pre ++ ·) := by
  induction pre with
  | nil => simp
  | cons e pre ih =>
    rw [List.cons_append, updateLogElement]
    rw [hpre e (List.mem_cons_self e pre)]
    rw [ih (fun x hx => hpre x (List.mem_cons_of_mem e hx))]
    simp [Option.map_map]
    rfl

/-- At the first waiting element, `updateLogElement` rewrites the em text
in place — to the skipped marker for a skip, to the quoted answer
otherwise — and stops. -/
theorem updateLogElement_hit (requestId response ts q action : String)
    (post : List StepElem) :
    updateLogElement requestId (StepElem.askPending ts q waitingText :: post)
        response action =
      some (StepElem.askPending ts q
        ("User response: " ++
          (if action == "skip" then "(skipped)" else quoteStr response))
        :: post) := by
  rw [updateLogElement, matchesWaiting_pending]
  simp [rewriteEm]

/-! ### The claims -/

/-- C1 (counterexample): the claim asserts that a transport-error poll
returning any terminal status — completed, failed or cancelled — settles
the session without consuming a retry or reopening a channel.  On the
authoritative status `cancelled` the handler instead takes the retry
branch: the retry counter is incremented, a reconnect is scheduled, and
when the scheduled delay fires a new channel is opened. -/
theorem claim_C1_counterexample :
    (onError sampleOpen (some ⟨"cancelled", none⟩)).retryCount = 1 ∧
    (onError sampleOpen (some ⟨"cancelled", none⟩)).reconnectScheduled = true ∧
    (runTrace (onError sampleOpen (some ⟨"cancelled", none⟩))
        [SSEEvent.reconnect]).opens = sampleOpen.opens + 1 := by
  refine ⟨rfl, rfl, rfl⟩

/-- C1 (amended): for a session whose open channel signals a transport
error before any terminal frame, the engine polls the task status once,
and when that poll returns status completed or failed — though not
cancelled — the session transitions directly to its closed terminal
state: the retry counter is unchanged, no reconnect is scheduled, the
channel is closed, and no channel is ever opened afterwards. -/
theorem claim_C1_amended (st : SSEState) (task : TaskSnap)
    (ho : st.esOpen = true) (hs : st.reconnectScheduled = false)
    (hstat : task.status = "completed" ∨ task.status = "failed") :
    (onError st (some task)).retryCount = st.retryCount ∧
    (onError st (some task)).reqs = st.reqs ++ [Request.pollStatus] ∧
    (onError st (some task)).esOpen = false ∧
    (onError st (some task)).reconnectScheduled = false ∧
    ∀ evs : List SSEEvent,
      (runTrace (onError st (some task)) evs).opens =
        (onError st (some task)).opens := by
  obtain ⟨h1, h2, h3, h4⟩ := onError_terminalPoll st task ho hstat
  refine ⟨h1, h3, h4, h2.trans hs, fun evs => ?_⟩
  exact (closedDead_trace _ evs ⟨h4, h2.trans hs⟩).2

/-- C1 (witness): the amended theorem evaluated on the fresh session with
a poll showing status completed. -/
theorem claim_C1_witness :
    (onError sampleOpen (some ⟨"completed", none⟩)).retryCount =
        sampleOpen.retryCount ∧
    (runTrace (onError sampleOpen (some ⟨"completed", none⟩))
        [SSEEvent.reconnect, SSEEvent.heartbeatTick]).opens =
      (onError sampleOpen (some ⟨"completed", none⟩)).opens := by
  have h := claim_C1_amended sampleOpen ⟨"completed", none⟩ rfl rfl (Or.inl rfl)
  exact ⟨h.1, h.2.2.2.2 [SSEEvent.reconnect, SSEEvent.heartbeatTick]⟩

/-- C2 (confirmed): a well-formed terminal frame (complete, error or
cancelled) delivered on an open channel closes the channel; afterwards no
frame is acted on (dispatch is the identity), no reconnect is scheduled,
and no event sequence ever opens another channel. -/
theorem claim_C2 (st : SSEState) (name : String) (d : FrameData)
    (now : String) (ho : st.esOpen = true) (hs : st.reconnectScheduled = false)
    (hterm : name = "complete" ∨ name = "error" ∨ name = "cancelled") :
    (dispatchFrame st name (some d) now).esOpen = false ∧
    (dispatchFrame st name (some d) now).reconnectScheduled = false ∧
    (dispatchFrame st name (some d) now).opens = st.opens ∧
    (∀ n2 d2 now2,
      dispatchFrame (dispatchFrame st name (some d) now) n2 d2 now2 =
        dispatchFrame st name (some d) now) ∧
    ∀ evs : List SSEEvent,
      (runTrace (dispatchFrame st name (some d) now) evs).opens = st.opens := by
  obtain ⟨h1, h2, h3⟩ := dispatchFrame_terminal st name d now ho hterm
  refine ⟨h1, h2.trans hs, h3, ?_, ?_⟩
  · intro n2 d2 now2
    exact dispatchFrame_closed _ n2 d2 now2 h1
  · intro evs
    exact ((closedDead_trace _ evs ⟨h1, h2.trans hs⟩).2).trans h3

/-- C2 (witness): a complete frame on the fresh session. -/
theorem claim_C2_witness :
    (dispatchFrame sampleOpen "complete"
        (some ⟨some (ResultVal.text "Done"), none⟩) "10:00:00").esOpen = false ∧
    (runTrace
        (dispatchFrame sampleOpen "complete"
          (some ⟨some (ResultVal.text "Done"), none⟩) "10:00:00")
        [SSEEvent.transportError none, SSEEvent.reconnect]).opens =
      sampleOpen.opens := by
  have h := claim_C2 sampleOpen "complete" ⟨some (ResultVal.text "Done"), none⟩
    "10:00:00" rfl rfl (Or.inl rfl)
  exact ⟨h.1, h.2.2.2.2 [SSEEvent.transportError none, SSEEvent.reconnect]⟩

/-- C3 (confirmed): the retry counter never exceeds `maxRetries`; any
step either preserves it or increments it by one under the strict budget
check; a reconnect (channel reopen) preserves it; and once the budget is
exhausted with no reconnect pending, no event sequence ever opens another
channel. -/
theorem claim_C3 (st : SSEState) (ev : SSEEvent)
    (hb : st.retryCount ≤ maxRetries) :
    (sseStep st ev).retryCount ≤ maxRetries ∧
    ((sseStep st ev).retryCount = st.retryCount ∨
      (st.retryCount < maxRetries ∧
        (sseStep st ev).retryCount = st.retryCount + 1)) ∧
    (sseStep st SSEEvent.reconnect).retryCount = st.retryCount ∧
    (st.retryCount = maxRetries → st.reconnectScheduled = false →
      ∀ evs : List SSEEvent, (runTrace st evs).opens = st.opens) := by
  have hstep : (sseStep st ev).retryCount = st.retryCount ∨
      (st.retryCount < maxRetries ∧
        (sseStep st ev).retryCount = st.retryCount + 1) := by
    cases ev with
    | frame n d now => exact Or.inl (dispatchFrame_ctrl st n d now).1
    | transportError poll => exact onError_retryCount st poll
    | reconnect => exact Or.inl (sseStep_reconnect_retryCount st)
    | heartbeatTick => rw [sseStep]; split_ifs <;> exact Or.inl rfl
    | statusReply task =>
      cases task with
      | none => exact Or.inl rfl
      | some t => exact Or.inl (updateTaskStatus_ctrl st t).1
  refine ⟨?_, hstep, sseStep_reconnect_retryCount st, fun h1 h2 evs => ?_⟩
  · rcases hstep with h | ⟨h3, h4⟩ <;> omega
  · exact (exhausted_trace st evs ⟨h1, h2⟩).2

/-- C4 (counterexample): the claim asserts a status poll is issued after
every terminal event, the error frame included.  A well-formed error
frame on the fresh open session runs the terminal error handler — the
channel is closed — yet no status poll is issued: the request log stays
empty, while the complete and cancelled handlers do append a poll. -/
theorem claim_C4_counterexample :
    (dispatchFrame sampleOpen "error"
        (some ⟨none, some "boom"⟩) "10:00:00").esOpen = false ∧
    (dispatchFrame sampleOpen "error"
        (some ⟨none, some "boom"⟩) "10:00:00").reqs = [] := by
  refine ⟨rfl, rfl⟩

/-- C4 (amended): a status poll is issued immediately on channel open and
after every successfully classified generic frame (think, tool, act, log,
run, message, with a string result), and after the complete and cancelled
terminal events; no poll is issued by the error terminal handler nor by
the ask_human handler. -/
theorem claim_C4_amended (st : SSEState) (t s now : String) (d : FrameData)
    (ho : st.esOpen = true) (hgen : t ∈ registeredGeneric)
    (hres : d.result = some (ResultVal.text s)) :
    (connect st).reqs = st.reqs ++ [Request.pollStatus] ∧
    (dispatchFrame st t (some d) now).reqs = st.reqs ++ [Request.pollStatus] ∧
    (dispatchFrame st "complete" (some d) now).reqs =
      st.reqs ++ [Request.pollStatus] ∧
    (dispatchFrame st "cancelled" (some d) now).reqs =
      st.reqs ++ [Request.pollStatus] ∧
    (dispatchFrame st "error" (some d) now).reqs = st.reqs ∧
    (dispatchFrame st "ask_human" (some d) now).reqs = st.reqs := by
  refine ⟨rfl, ?_, ?_, ?_, ?_, ?_⟩
  · have hd : dispatchFrame st t (some d) now = handleEvent st t (some d) now := by
      unfold dispatchFrame; rw [ho]; simp [hgen]
    rw [hd]
    exact handleEvent_reqs_str st t s now d hres
  · simp [dispatchFrame, ho, registeredGeneric, handleComplete]
  · simp [dispatchFrame, ho, registeredGeneric, handleCancelled]
  · simp [dispatchFrame, ho, registeredGeneric, handleErrorEvt]
  · have hd : dispatchFrame st "ask_human" (some d) now =
        handleAskHuman st (some d) now := by
      simp [dispatchFrame, ho, registeredGeneric]
    rw [hd]
    exact (handleAskHuman_ctrl st (some d) now).2.2.2.2

/-- C4 (witness): the amended theorem evaluated on a think frame carrying
a string result. -/
theorem claim_C4_witness :
    (dispatchFrame sampleOpen "think"
        (some ⟨some (ResultVal.text "pondering"), none⟩) "10:00:00").reqs =
      sampleOpen.reqs ++ [Request.pollStatus] ∧
    (dispatchFrame sampleOpen "error"
        (some ⟨some (ResultVal.text "pondering"), none⟩) "10:00:00").reqs =
      sampleOpen.reqs := by
  have h := claim_C4_amended sampleOpen "think" "pondering" "10:00:00"
    ⟨some (ResultVal.text "pondering"), none⟩ rfl (by decide) rfl
  exact ⟨h.2.1, h.2.2.2.2.1⟩

/-- C5 (counterexample): the claim asserts a frame with an unknown
event name is turned into a generic informational step rather than
dropped.  The channel registers listeners only for the known names, so a
frame named progress_update fires no listener at all: the session state —
in particular the rendered narrative — is completely unchanged, and no
step is produced. -/
theorem claim_C5_counterexample :
    dispatchFrame sampleOpen "progress_update"
        (some ⟨some (ResultVal.text "working"), none⟩) "10:00:00" =
      sampleOpen := by
  rfl

/-- C5 (amended): a frame whose event name has no registered listener is
dropped without any state change; the classification helpers themselves
never reject an unknown type — for any name outside the known icon and
label tables, `getEventIcon` falls back to the info icon, `getEventLabel`
falls back to the Info label, and `createStepElement` builds the generic
informational step from them. -/
theorem claim_C5_amended (st : SSEState) (name c ts now : String)
    (d : Option FrameData) (h : name ∉ registeredTypes ++ ["result"]) :
    dispatchFrame st name d now = st ∧
    getEventIcon name = "ℹ️" ∧
    getEventLabel name = "Info" ∧
    createStepElement name c ts = StepElem.item name "ℹ️" "Info" ts c none := by
  have hne : name ≠ "think" ∧ name ≠ "tool" ∧ name ≠ "act" ∧ name ≠ "log" ∧
      name ≠ "run" ∧ name ≠ "message" ∧ name ≠ "ask_human" ∧
      name ≠ "complete" ∧ name ≠ "error" ∧ name ≠ "cancelled" ∧
      name ≠ "result" := by
    refine ⟨?_, ?_, ?_, ?_, ?_, ?_, ?_, ?_, ?_, ?_, ?_⟩ <;>
      exact fun he => h (by rw [he]; decide)
  obtain ⟨n1, n2, n3, n4, n5, n6, n7, n8, n9, n10, n11⟩ := hne
  have b1 : (name == "think") = false := beq_eq_false_iff_ne.mpr n1
  have b2 : (name == "tool") = false := beq_eq_false_iff_ne.mpr n2
  have b3 : (name == "act") = false := beq_eq_false_iff_ne.mpr n3
  have b4 : (name == "log") = false := beq_eq_false_iff_ne.mpr n4
  have b5 : (name == "run") = false := beq_eq_false_iff_ne.mpr n5
  have b6 : (name == "message") = false := beq_eq_false_iff_ne.mpr n6
  have b7 : (name == "ask_human") = false := beq_eq_false_iff_ne.mpr n7
  have b8 : (name == "complete") = false := beq_eq_false_iff_ne.mpr n8
  have b9 : (name == "error") = false := beq_eq_false_iff_ne.mpr n9
  have b10 : (name == "cancelled") = false := beq_eq_false_iff_ne.mpr n10
  have b11 : (name == "result") = false := beq_eq_false_iff_ne.mpr n11
  have hicon : getEventIcon name = "ℹ️" := by
    simp [getEventIcon, eventIcons, List.lookup, b1, b2, b3, b4, b5, b6, b7,
      b8, b9, b11]
  have hlabel : getEventLabel name = "Info" := by
    simp [getEventLabel, eventLabels, List.lookup, b1, b2, b3, b4, b5, b6, b7,
      b8, b9, b11]
  refine ⟨?_, hicon, hlabel, ?_⟩
  · rcases Bool.eq_false_or_eq_true st.esOpen with he | he
    · simp [dispatchFrame, he, registeredGeneric, n1, n2, n3, n4, n5, n6, b7,
        b8, b9, b10]
    · exact dispatchFrame_closed st name d now he
  · simp [createStepElement, mkLogLine, b3, b4, hicon, hlabel]

/-- C5 (witness): the amended theorem evaluated on an unknown name. -/
theorem claim_C5_witness :
    dispatchFrame sampleOpen "progress" (some ⟨some (ResultVal.text "x"), none⟩)
        "10:00:00" = sampleOpen ∧
    getEventIcon "progress" = "ℹ️" ∧
    createStepElement "progress" "x" "10:00:00" =
      StepElem.item "progress" "ℹ️" "Info" "10:00:00" "x" none := by
  have h := claim_C5_amended sampleOpen "progress" "x" "10:00:00" "10:00:00"
    (some ⟨some (ResultVal.text "x"), none⟩) (by decide)
  exact ⟨h.1, h.2.1, h.2.2.2⟩

/-- C3 (witness): the exhausted session takes a transport error without
exceeding the budget and never opens another channel. -/
theorem claim_C3_witness :
    (sseStep sampleExhausted (SSEEvent.transportError none)).retryCount ≤
        maxRetries ∧
    (runTrace sampleExhausted
        [SSEEvent.transportError none, SSEEvent.reconnect]).opens =
      sampleExhausted.opens := by
  have h := claim_C3 sampleExhausted (SSEEvent.transportError none) (by decide)
  exact ⟨h.1, h.2.2.2 rfl rfl [SSEEvent.transportError none, SSEEvent.reconnect]⟩

/-- C6 (confirmed): with the modal open and exactly one pending ask-human
log element, one submission — whether an answer or a skip — issues
exactly one respond POST: a skip posts the fixed sentinel text, an answer
posts the nonempty trimmed answer text.  On a 2xx reply the single
pending element's em text is rewritten in place exactly once — to the
skipped marker for a skip, to the quoted answer otherwise — every other
element, and the length of the log, are unchanged, and the modal close is
scheduled with the matching success footer. -/
theorem claim_C6 (st : RespondState) (requestId ts q action response : String)
    (textarea : Option String) (pre post : List StepElem)
    (hm : st.modal.present = true)
    (hlogs : st.logs = pre ++ StepElem.askPending ts q waitingText :: post)
    (hpre : ∀ e ∈ pre, matchesWaiting e = false)
    (hresp : (action = "skip" ∧ response = skipSentinel) ∨
      (action ≠ "skip" ∧ jsTrim (textarea.getD "") = response ∧
        response ≠ "")) :
    (respondToHumanModal st requestId textarea action RespondOutcome.ok).posts =
      st.posts ++ [⟨requestId, response⟩] ∧
    (respondToHumanModal st requestId textarea action RespondOutcome.ok).logs =
      pre ++ StepElem.askPending ts q
        ("User response: " ++
          (if action == "skip" then "(skipped)" else quoteStr response))
        :: post ∧
    (respondToHumanModal st requestId textarea action
        RespondOutcome.ok).closeScheduled = true ∧
    (respondToHumanModal st requestId textarea action
        RespondOutcome.ok).modal.footer =
      FooterState.successMsg
        (if action == "skip" then "✓ Question skipped"
         else "✓ Response sent successfully") := by
  have hupd : updateLogElement requestId st.logs response action =
      some (pre ++ StepElem.askPending ts q
        ("User response: " ++
          (if action == "skip" then "(skipped)" else quoteStr response))
        :: post) := by
    rw [hlogs, updateLogElement_append requestId response action pre _ hpre,
        updateLogElement_hit]
    rfl
  rcases hresp with ⟨ha, hr⟩ | ⟨ha, ht, hr⟩
  · subst ha; subst hr
    simp_all [respondToHumanModal, showModalLoading, showModalSuccess]
  · have hb : (action == "skip") = false := beq_eq_false_iff_ne.mpr ha
    have hb2 : (response == "") = false := beq_eq_false_iff_ne.mpr hr
    simp_all [respondToHumanModal, showModalLoading, showModalSuccess]

/-- C6 (witness): on the ready modal with one pending question, the skip
flow posts the sentinel and shows the skipped marker, and the answer flow
posts the trimmed answer and shows it quoted. -/
theorem claim_C6_witness :
    (respondToHumanModal modalReady "r1" none "skip" RespondOutcome.ok).posts =
      [⟨"r1", "User chose to skip this question."⟩] ∧
    (respondToHumanModal modalReady "r1" none "skip" RespondOutcome.ok).logs =
      [StepElem.askPending "10:00:00" "Proceed?" "User response: (skipped)"] ∧
    (respondToHumanModal modalReady "r1" (some " yes ") "respond"
        RespondOutcome.ok).posts = [⟨"r1", "yes"⟩] ∧
    (respondToHumanModal modalReady "r1" (some " yes ") "respond"
        RespondOutcome.ok).logs =
      [StepElem.askPending "10:00:00" "Proceed?"
        "User response: \"yes\""] := by
  have hskip := claim_C6 modalReady "r1" "10:00:00" "Proceed?" "skip"
    "User chose to skip this question." none [] [] rfl rfl (by simp)
    (Or.inl ⟨rfl, rfl⟩)
  have hans := claim_C6 modalReady "r1" "10:00:00" "Proceed?" "respond"
    "yes" (some " yes ") [] [] rfl rfl (by simp)
    (Or.inr ⟨by decide, rfl, by decide⟩)
  exact ⟨hskip.1, hskip.2.1, hans.1, hans.2.1⟩

/-- C7 (code bug): after a failed respond POST the modal stays open, the
error is rendered in its footer, exactly one POST was issued and no close
or retry is scheduled — but the submission buttons, disabled by the
loading indicator before the POST, are never re-enabled, so the
submission controls are not usable for the resubmission the rendered
message invites. -/
theorem claim_C7_bug :
    (respondToHumanModal modalReady "r1" (some "yes") "respond"
        RespondOutcome.networkError).modal.present = true ∧
    (respondToHumanModal modalReady "r1" (some "yes") "respond"
        RespondOutcome.networkError).modal.footer =
      FooterState.errorMsg "Network error. Please try again." ∧
    (respondToHumanModal modalReady "r1" (some "yes") "respond"
        RespondOutcome.networkError).posts = [⟨"r1", "yes"⟩] ∧
    (respondToHumanModal modalReady "r1" (some "yes") "respond"
        RespondOutcome.networkError).closeScheduled = false ∧
    (respondToHumanModal modalReady "r1" (some "yes") "respond"
        RespondOutcome.networkError).modal.buttonsEnabled = false := by
  refine ⟨rfl, rfl, rfl, rfl, rfl⟩

/-- C8 (confirmed): an ask-human frame whose payload lacks a non-empty
request id renders exactly the explicit error step and nothing else: no
modal is surfaced, no request is issued, and the channel stays open. -/
theorem claim_C8 (st : SSEState) (data : FrameData) (now : String)
    (ho : st.esOpen = true)
    (hbad : askRequestId data.result = none ∨
      askRequestId data.result = some "") :
    (dispatchFrame st "ask_human" (some data) now).stepContainer =
      some (curSteps st ++ [StepElem.askError now]) ∧
    (dispatchFrame st "ask_human" (some data) now).modal = st.modal ∧
    (dispatchFrame st "ask_human" (some data) now).reqs = st.reqs ∧
    (dispatchFrame st "ask_human" (some data) now).esOpen = true := by
  have hd : dispatchFrame st "ask_human" (some data) now =
      handleAskHuman st (some data) now := by
    simp [dispatchFrame, ho, registeredGeneric]
  have hel : createHumanRequestElement data.result now =
      (StepElem.askError now, none) := by
    rcases hbad with hb | hb <;> simp [createHumanRequestElement, hb]
  rw [hd]
  rcases hsc : st.stepContainer with _ | steps <;>
    simp [handleAskHuman, hel, appendStep, ensureSteps, removeLoading,
      curSteps, hsc, ho]

/-- C8 (witness): an ask-human frame whose result is a bare string (hence
no request id). -/
theorem claim_C8_witness :
    (dispatchFrame sampleOpen "ask_human"
        (some ⟨some (ResultVal.text "Proceed?"), none⟩) "10:00:00").stepContainer =
      some [StepElem.askError "10:00:00"] ∧
    (dispatchFrame sampleOpen "ask_human"
        (some ⟨some (ResultVal.text "Proceed?"), none⟩) "10:00:00").modal =
      none := by
  have h := claim_C8 sampleOpen ⟨some (ResultVal.text "Proceed?"), none⟩
    "10:00:00" rfl (Or.inl rfl)
  exact ⟨h.1, h.2.1⟩

/-- C9 (counterexample): the claim asserts a malformed (unparseable)
frame renders a local error step.  On the fresh session an unparseable
think frame leaves the narrative completely untouched — no step container
is created, no container item is appended (the failure is only logged to
the console) — though the channel does stay open. -/
theorem claim_C9_counterexample :
    (dispatchFrame sampleOpen "think" none "10:00:00").stepContainer = none ∧
    (dispatchFrame sampleOpen "think" none "10:00:00").containerItems = [] ∧
    (dispatchFrame sampleOpen "think" none "10:00:00").esOpen = true := by
  refine ⟨rfl, rfl, rfl⟩

/-- C9 (amended): a frame whose payload fails to parse is treated as a
single bad frame by every registered handler: the only state change is
the cleared heartbeat — no error step is rendered, the channel is not
closed — and every subsequent frame is processed exactly as it would be
from the heartbeat-cleared state. -/
theorem claim_C9_amended (st : SSEState) (name now : String)
    (ho : st.esOpen = true) (hreg : name ∈ registeredTypes) :
    dispatchFrame st name none now = { st with heartbeat := false } ∧
    (dispatchFrame st name none now).esOpen = true ∧
    ∀ n2 d2 now2,
      dispatchFrame (dispatchFrame st name none now) n2 d2 now2 =
        dispatchFrame { st with heartbeat := false } n2 d2 now2 := by
  have h1 : dispatchFrame st name none now = { st with heartbeat := false } := by
    simp only [registeredTypes, registeredGeneric, List.mem_append,
      List.mem_cons, List.mem_singleton, List.not_mem_nil, or_false] at hreg
    rcases hreg with (rfl | rfl | rfl | rfl | rfl | rfl) | rfl | rfl | rfl | rfl <;>
      simp [dispatchFrame, ho, registeredGeneric, handleEvent, handleAskHuman,
        handleComplete, handleErrorEvt, handleCancelled]
  refine ⟨h1, ?_, ?_⟩
  · rw [h1]; exact ho
  · intro n2 d2 now2; rw [h1]

/-- C9 (witness): an unparseable complete frame followed by a well-formed
complete frame behaves as if the bad frame had not arrived. -/
theorem claim_C9_witness :
    dispatchFrame sampleOpen "complete" none "10:00:00" =
      { sampleOpen with heartbeat := false } ∧
    dispatchFrame (dispatchFrame sampleOpen "complete" none "10:00:00")
        "complete" (some ⟨some (ResultVal.text "Done"), none⟩) "10:00:01" =
      dispatchFrame { sampleOpen with heartbeat := false } "complete"
        (some ⟨some (ResultVal.text "Done"), none⟩) "10:00:01" := by
  have h := claim_C9_amended sampleOpen "complete" "10:00:00" rfl (by decide)
  exact ⟨h.1, h.2.2 "complete" (some ⟨some (ResultVal.text "Done"), none⟩)
    "10:00:01"⟩

/-- C10 (confirmed): a task-creation request whose prompt trims to the
empty string performs no network request and leaves the open-channel
handle and the current task id unchanged. -/
theorem claim_C10 (g : AppGlobals) (inputValue : String)
    (h : jsTrim inputValue = "") :
    (createTask g inputValue).2 = [] ∧
    (createTask g inputValue).1.currentESOpen = g.currentESOpen ∧
    (createTask g inputValue).1.currentTaskId = g.currentTaskId := by
  simp [createTask, h]

/-- C10 (witness): a whitespace-only prompt on a session with an open
channel and a current task. -/
theorem claim_C10_witness :
    (createTask
        { currentESOpen := true, currentTaskId := some "t1",
          containerLoading := false, cancelBtnVisible := true,
          promptFocused := false } "  \t ").2 = [] ∧
    (createTask
        { currentESOpen := true, currentTaskId := some "t1",
          containerLoading := false, cancelBtnVisible := true,
          promptFocused := false } "  \t ").1.currentTaskId = some "t1" := by
  have h := claim_C10
    { currentESOpen := true, currentTaskId := some "t1",
      containerLoading := false, cancelBtnVisible := true,
      promptFocused := false } "  \t " (by rfl)
  exact ⟨h.1, h.2.2⟩

end OpenManus
